import Mathlib

/-!
Shallow embedding of the idasen-controller desk driver (main.py) and proofs
about its movement controller, telemetry decoder, unit conversions, command
encoder, stop-flag handling and process exit codes.
-/

namespace Idasen

/-- Height of the desk at its lowest position, in mm (source constant BASE_HEIGHT = 620). -/
def BASE_HEIGHT : ℚ := 620

/-- Maximum height of the desk, in mm (source constant MAX_HEIGHT = 1270). -/
def MAX_HEIGHT : ℚ := 1270

/-- Source: mmToRaw(mm) = (mm - BASE_HEIGHT) * 10.  Python arithmetic on these
values is exact, so the embedding uses the rationals. -/
def mmToRaw (mm : ℚ) : ℚ := (mm - BASE_HEIGHT) * 10

/-- Source: rawToMM(raw) = (raw / 10) + BASE_HEIGHT. -/
def rawToMM (raw : ℚ) : ℚ := raw / 10 + BASE_HEIGHT

/-- Source: rawToSpeed(raw) = raw / 100. -/
def rawToSpeed (raw : ℚ) : ℚ := raw / 100

/-- Source: has_reached_target(height, target) = (abs(height - target) <=
config height_tolerance_raw).  Heights and targets are integers (raw device
units); the tolerance is the float 10 * height_tolerance, embedded as a
rational and passed as a parameter.  The absolute difference of the two
integers is taken as the natural magnitude and compared with the tolerance. -/
def has_reached_target (tol : ℚ) (height target : ℤ) : Bool :=
  decide (((height - target).natAbs : ℚ) ≤ tol)

/-- The natural magnitude used in has_reached_target is the rational absolute
difference. -/
theorem natAbs_cast_eq_abs (height target : ℤ) :
    (((height - target).natAbs : ℚ)) = |(height : ℚ) - target| := by
  rw [Int.cast_natAbs, Int.cast_abs]
  push_cast
  rfl

/-- Little-endian unsigned 16-bit value from two bytes. -/
def toUInt16LE (b0 b1 : ℕ) : ℕ := b0 + 256 * b1

/-- Reading of a 16-bit value as a signed (twos-complement) integer, as
struct.unpack format character h does. -/
def toInt16 (n : ℕ) : ℤ := if n < 32768 then (n : ℤ) else (n : ℤ) - 65536

/-- Source: struct.unpack with format string under-H-h on a notification
payload: bytes 0-1 are the unsigned 16-bit raw height, bytes 2-3 the signed
16-bit raw speed, both little-endian.  struct.unpack raises struct.error
unless the payload is exactly 4 bytes; the embedding returns none there. -/
def unpackHh (data : List ℕ) : Option (ℕ × ℤ) :=
  match data with
  | [b0, b1, b2, b3] => some (toUInt16LE b0 b1, toInt16 (toUInt16LE b2 b3))
  | _ => none

/-- Claim C7: the unit conversions are exact inverses over exact arithmetic
with BASE_HEIGHT = 620: rawToMM (mmToRaw x) = x for every mm value x, and
mmToRaw (rawToMM r) = r for every raw value r. -/
theorem conversions_exact_inverses :
    (∀ x : ℚ, rawToMM (mmToRaw x) = x) ∧ (∀ r : ℚ, mmToRaw (rawToMM r) = r) := by
  constructor <;> intro v <;>
    simp only [rawToMM, mmToRaw, BASE_HEIGHT] <;> ring

/-- Claim C4: has_reached_target height target is true iff the distance from
height to target is at most the configured tolerance; at distance exactly the
tolerance it is true, and at distance exactly tolerance + 1 raw units it is
false. -/
theorem has_reached_target_spec (tol : ℚ) (height target : ℤ) :
    (has_reached_target tol height target = true ↔ |(height : ℚ) - target| ≤ tol) ∧
    (|(height : ℚ) - target| = tol → has_reached_target tol height target = true) ∧
    (|(height : ℚ) - target| = tol + 1 → has_reached_target tol height target = false) := by
  refine ⟨by simp [has_reached_target, natAbs_cast_eq_abs], fun h => ?_, fun h => ?_⟩
  · simp [has_reached_target, natAbs_cast_eq_abs, h]
  · have hlt : ¬(|(height : ℚ) - target| ≤ tol) := by
      rw [h]
      linarith
    simp [has_reached_target, natAbs_cast_eq_abs, hlt]

/-- Witness for C4 at tolerance 20 raw units: distance exactly 20 converges,
distance exactly 21 does not. -/
theorem has_reached_target_spec_witness :
    has_reached_target 20 120 100 = true ∧ has_reached_target 20 121 100 = false := by
  constructor
  · exact (has_reached_target_spec 20 120 100).2.1 (by norm_num)
  · exact (has_reached_target_spec 20 121 100).2.2 (by norm_num)

/-- Claim C6: the telemetry decoder reads a 4-byte little-endian payload as an
unsigned 16-bit height and a signed 16-bit speed, so [0x64, 0x00, 0xF6, 0xFF]
decodes to height 100 and speed -10, and every payload whose length is not 4
fails to decode. -/
theorem telemetry_decode_spec :
    unpackHh [0x64, 0x00, 0xF6, 0xFF] = some (100, -10) ∧
    (∀ data : List ℕ, data.length ≠ 4 → unpackHh data = none) := by
  refine ⟨by decide, fun data h => ?_⟩
  match data with
  | [] => rfl
  | [_] => rfl
  | [_, _] => rfl
  | [_, _, _] => rfl
  | [_, _, _, _] => exact absurd rfl h
  | _ :: _ :: _ :: _ :: _ :: _ => rfl

/-- Witness for C6: a 3-byte payload fails to decode. -/
theorem telemetry_decode_spec_witness : unpackHh [1, 2, 3] = none :=
  telemetry_decode_spec.2 [1, 2, 3] (by decide)

/-! Command encoder and the stop operation. -/

/-- struct.pack of an unsigned 16-bit value as two little-endian bytes. -/
def packUInt16LE (n : ℕ) : List ℕ := [n % 256, n / 256 % 256]

/-- UUID of the Height characteristic. -/
def UUID_HEIGHT : String := "99fa0021-338a-1024-8a49-009c0215f78a"

/-- UUID of the Command characteristic. -/
def UUID_COMMAND : String := "99fa0002-338a-1024-8a49-009c0215f78a"

/-- UUID of the Reference Input characteristic. -/
def UUID_REFERENCE_INPUT : String := "99fa0031-338a-1024-8a49-009c0215f78a"

/-- Move-up command code 71 packed little-endian. -/
def COMMAND_UP : List ℕ := packUInt16LE 71

/-- Move-down command code 70 packed little-endian. -/
def COMMAND_DOWN : List ℕ := packUInt16LE 70

/-- Stop command code 255 packed little-endian. -/
def COMMAND_STOP : List ℕ := packUInt16LE 255

/-- Reference-Input stop code 32769 packed little-endian. -/
def COMMAND_REFERENCE_INPUT_STOP : List ℕ := packUInt16LE 32769

/-- One GATT write request: target characteristic and payload. -/
structure WriteReq where
  uuid : String
  payload : List ℕ
deriving DecidableEq, Repr

/-- Source stop(client): writes COMMAND_STOP to the Command characteristic
and, when running on Linux, additionally writes COMMAND_REFERENCE_INPUT_STOP
to the Reference Input characteristic.  The body of stop contains no
exception handling, so a failure of either write escapes the function.  The
write backend is a parameter w; the embedding returns the overall outcome
together with the sequence of attempted writes. -/
def stop (isLinux : Bool) (w : String → List ℕ → Except String Unit) :
    Except String Unit × List WriteReq :=
  match w UUID_COMMAND COMMAND_STOP with
  | .error e => (.error e, [⟨UUID_COMMAND, COMMAND_STOP⟩])
  | .ok _ =>
    if isLinux then
      match w UUID_REFERENCE_INPUT COMMAND_REFERENCE_INPUT_STOP with
      | .error e =>
          (.error e,
           [⟨UUID_COMMAND, COMMAND_STOP⟩, ⟨UUID_REFERENCE_INPUT, COMMAND_REFERENCE_INPUT_STOP⟩])
      | .ok _ =>
          (.ok (),
           [⟨UUID_COMMAND, COMMAND_STOP⟩, ⟨UUID_REFERENCE_INPUT, COMMAND_REFERENCE_INPUT_STOP⟩])
    else (.ok (), [⟨UUID_COMMAND, COMMAND_STOP⟩])

/-- A write backend on which the Command write succeeds but every other
write (in particular the Reference Input write) fails. -/
def refInputFailingWrite (uuid : String) (_data : List ℕ) : Except String Unit :=
  if uuid = UUID_COMMAND then .ok () else .error "write failed"

/-- Counterexample to C5: on Linux, with a backend whose Reference Input
write fails, the overall stop operation fails — the secondary-write failure
is not swallowed inside stop. -/
theorem stop_swallows_secondary_failure_cex :
    (stop true refInputFailingWrite).1 = Except.error "write failed" := by
  rfl

/-- Claim C5 (amended): stop always writes the Stop code (255, little-endian)
to the Command characteristic first and, on Linux, additionally writes the
Reference-Input Stop code (32769) to the Reference Input characteristic; a
failure of the primary Command write propagates, and a failure of the
secondary Reference-Input write equally propagates out of stop (it is not
swallowed there). -/
theorem stop_write_spec (isLinux : Bool) (w : String → List ℕ → Except String Unit) :
    ((stop isLinux w).2.head? = some ⟨UUID_COMMAND, packUInt16LE 255⟩) ∧
    (isLinux = true → w UUID_COMMAND COMMAND_STOP = .ok () →
      (⟨UUID_REFERENCE_INPUT, packUInt16LE 32769⟩ : WriteReq) ∈ (stop isLinux w).2) ∧
    (∀ e, w UUID_COMMAND COMMAND_STOP = .error e → (stop isLinux w).1 = .error e) ∧
    (∀ e, isLinux = true → w UUID_COMMAND COMMAND_STOP = .ok () →
      w UUID_REFERENCE_INPUT COMMAND_REFERENCE_INPUT_STOP = .error e →
      (stop isLinux w).1 = .error e) := by
  refine ⟨?_, fun hl hok => ?_, fun e he => ?_, fun e hl hok he => ?_⟩
  · unfold stop
    cases hw : w UUID_COMMAND COMMAND_STOP with
    | error e => simp [COMMAND_STOP]
    | ok u =>
      cases isLinux with
      | false => simp [COMMAND_STOP]
      | true =>
        cases hw2 : w UUID_REFERENCE_INPUT COMMAND_REFERENCE_INPUT_STOP <;>
          simp [COMMAND_STOP]
  · subst hl
    unfold stop
    rw [hok]
    cases hw2 : w UUID_REFERENCE_INPUT COMMAND_REFERENCE_INPUT_STOP <;>
      simp [COMMAND_REFERENCE_INPUT_STOP]
  · unfold stop
    rw [he]
  · subst hl
    unfold stop
    rw [hok, he]
    simp

/-- Witness for C5 (amended) on the concrete failing backend: the secondary
write is attempted on Linux and its failure is the overall outcome of stop. -/
theorem stop_write_spec_witness :
    (⟨UUID_REFERENCE_INPUT, packUInt16LE 32769⟩ : WriteReq) ∈
      (stop true refInputFailingWrite).2 ∧
    (stop true refInputFailingWrite).1 = Except.error "write failed" := by
  have h := stop_write_spec true refInputFailingWrite
  exact ⟨h.2.1 rfl rfl, h.2.2.2 "write failed" rfl rfl rfl⟩

/-! Movement controller: the _move_to callback and the move_to coroutine. -/

/-- Movement direction: set once at move start and never changed. -/
inductive Dir
  | up
  | down
deriving DecidableEq, Repr

/-- Commands a move can write to the Command characteristic. -/
inductive Command
  | up
  | down
  | stop
deriving DecidableEq, Repr

/-- Directional command matching a direction. -/
def dirCmd : Dir → Command
  | .up => .up
  | .down => .down

/-- Source move_to: direction = UP if target > initial_height else DOWN. -/
def moveDirection (target initial : ℤ) : Dir :=
  if target > initial then Dir.up else Dir.down

/-- Mutable state touched by the _move_to callback: the global resend counter
count and the global stop flag written through ask_to_stop. -/
structure MoveState where
  count : ℕ
  stopFlag : Bool
deriving DecidableEq, Repr

/-- Source _move_to(sender, data), one notification: increment count; if the
height has reached the target, create a stop task and set the stop flag; else
if the direction is UP and count is 6, send move_up and reset count to 0;
else if the direction is DOWN and count is 6, send move_down and reset count
to 0; else do nothing.  Returns the new state and the commands written. -/
def moveStep (tol : ℚ) (direction : Dir) (target : ℤ) (s : MoveState) (height : ℤ) :
    MoveState × List Command :=
  let count := s.count + 1
  if has_reached_target tol height target then
    ({ count := count, stopFlag := true }, [Command.stop])
  else if direction = Dir.up ∧ count = 6 then
    ({ count := 0, stopFlag := s.stopFlag }, [Command.up])
  else if direction = Dir.down ∧ count = 6 then
    ({ count := 0, stopFlag := s.stopFlag }, [Command.down])
  else
    ({ count := count, stopFlag := s.stopFlag }, [])

/-- Notifications delivered while the subscription is active are processed in
order by _move_to; once the stop flag is set the subscribe loop exits and no
further notification is processed.  Returns the final state and all commands
written by the callback. -/
def runNotifications (tol : ℚ) (d : Dir) (target : ℤ) :
    MoveState → List ℤ → MoveState × List Command
  | s, [] => (s, [])
  | s, h :: hs =>
    if s.stopFlag then (s, [])
    else
      let sc := moveStep tol d target s h
      let rest := runNotifications tol d target sc.1 hs
      (rest.1, sc.2 ++ rest.2)

/-- Observable GATT actions of a move. -/
inductive Action
  | readHeight
  | startNotify (uuid : String)
  | stopNotify (uuid : String)
  | write (c : Command)
deriving DecidableEq, Repr

/-- Outcome reported by a move. -/
inductive MoveResult
  | noop
  | converged
  | timedOut
deriving DecidableEq, Repr

/-- Result and action trace of one move_to invocation. -/
structure MoveOutcome where
  result : MoveResult
  actions : List Action
deriving DecidableEq, Repr

/-- Source move_to(client, target): read the initial height once; set
direction to UP iff target > initial_height; if the initial height has
already reached the target, return without subscribing or writing; otherwise
subscribe to height notifications, write the first directional command, and
process the notification trace with _move_to.  If the trace ends without the
stop flag being set, the movement timeout fires: move_to prints the timeout
message, calls stop_notify and returns normally; on convergence the subscribe
loop itself calls stop_notify. -/
def move_to (tol : ℚ) (target initial : ℤ) (notifs : List ℤ) : MoveOutcome :=
  if has_reached_target tol initial target then
    { result := .noop, actions := [.readHeight] }
  else
    let direction := moveDirection target initial
    let run := runNotifications tol direction target ⟨0, false⟩ notifs
    { result := if run.1.stopFlag then .converged else .timedOut,
      actions := [.readHeight, .startNotify UUID_HEIGHT, .write (dirCmd direction)]
        ++ run.2.map .write ++ [.stopNotify UUID_HEIGHT] }

/-- Extraction of the command of a write action. -/
def actionWrite? : Action → Option Command
  | .write c => some c
  | _ => none

/-- Commands written during a move, in order. -/
def writesOf (o : MoveOutcome) : List Command :=
  o.actions.filterMap actionWrite?

/-- The directional command of moveDirection, as an if on the comparison. -/
theorem dirCmd_moveDirection (target initial : ℤ) :
    dirCmd (moveDirection target initial) =
      if target > initial then Command.up else Command.down := by
  unfold moveDirection
  split <;> rfl

/-- The stop command is not a directional command. -/
theorem stop_ne_dirCmd (d : Dir) : Command.stop ≠ dirCmd d := by
  cases d <;> simp [dirCmd]

/-- A non-converging notification leaves the stop flag unchanged and writes
no stop command; every command it writes is the directional command. -/
theorem moveStep_miss (tol : ℚ) (d : Dir) (target : ℤ) (s : MoveState) (height : ℤ)
    (hmiss : has_reached_target tol height target = false) :
    (moveStep tol d target s height).1.stopFlag = s.stopFlag ∧
    ∀ c ∈ (moveStep tol d target s height).2, c = dirCmd d := by
  cases d <;>
    simp only [moveStep, hmiss, Bool.false_eq_true, if_false, dirCmd] <;>
    by_cases hc : s.count + 1 = 6 <;> simp_all

/-- Every command one notification writes is Stop or the directional command. -/
theorem moveStep_writes (tol : ℚ) (d : Dir) (target : ℤ) (s : MoveState) (height : ℤ) :
    ∀ c ∈ (moveStep tol d target s height).2, c = Command.stop ∨ c = dirCmd d := by
  intro c hc
  by_cases hr : has_reached_target tol height target = true
  · left
    simp only [moveStep, hr, if_true, List.mem_singleton] at hc
    exact hc
  · right
    exact (moveStep_miss tol d target s height (by simpa using hr)).2 c hc

/-- Over a trace with no convergence, the stop flag is unchanged and every
written command is the directional command. -/
theorem runNotifications_no_converge (tol : ℚ) (d : Dir) (target : ℤ)
    (notifs : List ℤ) (s : MoveState)
    (hall : ∀ h ∈ notifs, has_reached_target tol h target = false) :
    (runNotifications tol d target s notifs).1.stopFlag = s.stopFlag ∧
    ∀ c ∈ (runNotifications tol d target s notifs).2, c = dirCmd d := by
  induction notifs generalizing s with
  | nil => simp [runNotifications]
  | cons h hs ih =>
    have hmiss := hall h (List.mem_cons_self h hs)
    have htail : ∀ x ∈ hs, has_reached_target tol x target = false :=
      fun x hx => hall x (List.mem_cons_of_mem h hx)
    have hstep := moveStep_miss tol d target s h hmiss
    have hrest := ih (moveStep tol d target s h).1 htail
    by_cases hstop : s.stopFlag = true
    · simp [runNotifications, hstop]
    · have hsf : s.stopFlag = false := by simpa using hstop
      constructor
      · simp only [runNotifications, hsf, Bool.false_eq_true, if_false]
        rw [hrest.1, hstep.1, hsf]
      · intro c hc
        simp only [runNotifications, hsf, Bool.false_eq_true, if_false,
          List.mem_append] at hc
        rcases hc with hc | hc
        · exact hstep.2 c hc
        · exact hrest.2 c hc

/-- Every command the callback writes over a trace is Stop or the directional
command. -/
theorem runNotifications_writes (tol : ℚ) (d : Dir) (target : ℤ)
    (notifs : List ℤ) (s : MoveState) :
    ∀ c ∈ (runNotifications tol d target s notifs).2,
      c = Command.stop ∨ c = dirCmd d := by
  induction notifs generalizing s with
  | nil => simp [runNotifications]
  | cons h hs ih =>
    intro c hc
    by_cases hstop : s.stopFlag = true
    · simp [runNotifications, hstop] at hc
    · have hsf : s.stopFlag = false := by simpa using hstop
      simp only [runNotifications, hsf, Bool.false_eq_true, if_false,
        List.mem_append] at hc
      rcases hc with hc | hc
      · exact moveStep_writes tol d target s h c hc
      · exact ih (moveStep tol d target s h).1 c hc

/-- Action trace of a move that is not already at the target. -/
theorem move_to_actions (tol : ℚ) (target initial : ℤ) (notifs : List ℤ)
    (h0 : has_reached_target tol initial target = false) :
    (move_to tol target initial notifs).actions =
      [Action.readHeight, Action.startNotify UUID_HEIGHT,
        Action.write (dirCmd (moveDirection target initial))] ++
      ((runNotifications tol (moveDirection target initial) target
          ⟨0, false⟩ notifs).2.map Action.write) ++
      [Action.stopNotify UUID_HEIGHT] := by
  simp [move_to, h0]

/-- Result of a move that is not already at the target. -/
theorem move_to_result (tol : ℚ) (target initial : ℤ) (notifs : List ℤ)
    (h0 : has_reached_target tol initial target = false) :
    (move_to tol target initial notifs).result =
      (if (runNotifications tol (moveDirection target initial) target
            ⟨0, false⟩ notifs).1.stopFlag
       then MoveResult.converged else MoveResult.timedOut) := by
  simp [move_to, h0]

/-- Filtering write actions out of a list of writes recovers the commands. -/
theorem filterMap_actionWrite_map (cmds : List Command) :
    (cmds.map Action.write).filterMap actionWrite? = cmds := by
  induction cmds with
  | nil => rfl
  | cons c cs ih => simp [actionWrite?, ih]

/-- Composed form of the previous lemma, as simp produces it. -/
theorem filterMap_actionWrite_comp (cmds : List Command) :
    List.filterMap (actionWrite? ∘ Action.write) cmds = cmds := by
  induction cmds with
  | nil => rfl
  | cons c cs ih => simp [actionWrite?, ih, Function.comp]

/-- The write trace of a non-noop move is the first directional command
followed by the callback writes. -/
theorem writesOf_move_to (tol : ℚ) (target initial : ℤ) (notifs : List ℤ)
    (h0 : has_reached_target tol initial target = false) :
    writesOf (move_to tol target initial notifs) =
      dirCmd (moveDirection target initial) ::
        (runNotifications tol (moveDirection target initial) target
          ⟨0, false⟩ notifs).2 := by
  rw [writesOf, move_to_actions tol target initial notifs h0]
  simp [actionWrite?, List.filterMap_append, filterMap_actionWrite_map,
    filterMap_actionWrite_comp]

/-- Claim C1: a processed notification outside tolerance increments the
resend counter; when the counter reaches exactly 6 the directional command
fixed at move start is re-issued exactly once and the counter resets to 0,
and no directional command is issued while the counter is below 6. -/
theorem resend_counter_spec (tol : ℚ) (d : Dir) (target : ℤ) (s : MoveState) (height : ℤ)
    (hmiss : has_reached_target tol height target = false) :
    (moveStep tol d target s height).2 =
      (if s.count + 1 = 6 then [dirCmd d] else []) ∧
    (moveStep tol d target s height).1.count =
      (if s.count + 1 = 6 then 0 else s.count + 1) := by
  cases d <;>
    simp only [moveStep, hmiss, Bool.false_eq_true, if_false, dirCmd] <;>
    by_cases hc : s.count + 1 = 6 <;> simp_all

/-- Witness for C1: with the counter at 5, a sixth non-converging
notification re-issues the Up command and resets the counter to 0. -/
theorem resend_counter_spec_witness :
    (moveStep 0 Dir.up 100 ⟨5, false⟩ 0).2 = [dirCmd Dir.up] ∧
    (moveStep 0 Dir.up 100 ⟨5, false⟩ 0).1.count = 0 := by
  have h := resend_counter_spec 0 Dir.up 100 ⟨5, false⟩ 0 (by decide)
  simpa using h

/-- Claim C2: a move whose notifications never converge returns normally with
a Timeout outcome, unsubscribes from height notifications, and writes no Stop
command. -/
theorem timeout_spec (tol : ℚ) (target initial : ℤ) (notifs : List ℤ)
    (h0 : has_reached_target tol initial target = false)
    (hall : ∀ h ∈ notifs, has_reached_target tol h target = false) :
    (move_to tol target initial notifs).result = MoveResult.timedOut ∧
    Action.stopNotify UUID_HEIGHT ∈ (move_to tol target initial notifs).actions ∧
    Action.write Command.stop ∉ (move_to tol target initial notifs).actions := by
  have hrun := runNotifications_no_converge tol (moveDirection target initial)
    target notifs ⟨0, false⟩ hall
  refine ⟨?_, ?_, ?_⟩
  · rw [move_to_result tol target initial notifs h0, hrun.1]
    simp
  · rw [move_to_actions tol target initial notifs h0]
    simp
  · rw [move_to_actions tol target initial notifs h0]
    intro hmem
    simp only [List.cons_append, List.nil_append, List.mem_cons, List.mem_append,
      List.mem_map, List.mem_singleton, List.not_mem_nil, or_false] at hmem
    rcases hmem with h | h | h | h
    · exact Action.noConfusion h
    · exact Action.noConfusion h
    · have h2 : Command.stop = dirCmd (moveDirection target initial) :=
        (Action.write.injEq _ _).mp h
      exact stop_ne_dirCmd _ h2
    · rcases h with ⟨c, hc, hwc⟩ | h
      · have h2 : c = Command.stop := (Action.write.injEq _ _).mp hwc
        subst h2
        rcases hrun.2 _ hc with h3
        exact stop_ne_dirCmd _ h3
      · exact Action.noConfusion h

/-- Witness for C2: from height 0 to target 100 with tolerance 0, two
non-converging notifications end in a timeout, the subscription is torn down
and no stop is written. -/
theorem timeout_spec_witness :
    (move_to 0 100 0 [1, 2]).result = MoveResult.timedOut ∧
    Action.stopNotify UUID_HEIGHT ∈ (move_to 0 100 0 [1, 2]).actions ∧
    Action.write Command.stop ∉ (move_to 0 100 0 [1, 2]).actions :=
  timeout_spec 0 100 0 [1, 2] (by decide) (by decide)

/-- Claim C3: the direction is fixed from the one-shot initial read: when the
initial height is out of tolerance, the first written command is Up if the
target is above the initial height and Down if below, every later directional
write repeats that same command, and when the initial height is within
tolerance nothing is written and no subscription is started. -/
theorem first_command_direction_spec (tol : ℚ) (target initial : ℤ) (notifs : List ℤ) :
    (has_reached_target tol initial target = true →
      (move_to tol target initial notifs).actions = [Action.readHeight]) ∧
    (has_reached_target tol initial target = false →
      (writesOf (move_to tol target initial notifs)).head? =
        some (if target > initial then Command.up else Command.down)) ∧
    (has_reached_target tol initial target = false →
      ∀ c ∈ writesOf (move_to tol target initial notifs),
        c = Command.stop ∨
          c = (if target > initial then Command.up else Command.down)) := by
  refine ⟨fun h => ?_, fun h0 => ?_, fun h0 c hc => ?_⟩
  · simp [move_to, h]
  · rw [writesOf_move_to tol target initial notifs h0]
    simp [dirCmd_moveDirection]
  · rw [writesOf_move_to tol target initial notifs h0] at hc
    rcases List.mem_cons.mp hc with hc | hc
    · right
      rw [hc, dirCmd_moveDirection]
    · rcases runNotifications_writes tol (moveDirection target initial) target
        notifs ⟨0, false⟩ c hc with hs | hs
      · exact Or.inl hs
      · right
        rw [hs, dirCmd_moveDirection]

/-- Witness for C3: target 100 above initial height 0 gives Up as the first
command, and an initial height within tolerance yields only the one-shot
read. -/
theorem first_command_direction_spec_witness :
    (writesOf (move_to 0 100 0 [])).head? = some Command.up ∧
    (move_to 0 100 100 []).actions = [Action.readHeight] := by
  constructor
  · have h := (first_command_direction_spec 0 100 0 []).2.1 (by decide)
    simpa using h
  · exact (first_command_direction_spec 0 100 100 []).1 (by decide)

/-! Global stop flag, the signal and disconnect handlers, and the subscribe
loop. -/

/-- Source asked_to_stop(): read the global stop_flag. -/
def asked_to_stop (stop_flag : Bool) : Bool := stop_flag

/-- Source ask_to_stop(): set the global stop_flag to True. -/
def ask_to_stop (_stop_flag : Bool) : Bool := true

/-- Source disconnect_callback(client), installed in run(): print the
lost-connection message when the flag is not yet set, then call ask_to_stop.
Returns the new flag value and whether the message was printed. -/
def disconnect_callback (stop_flag : Bool) : Bool × Bool :=
  (ask_to_stop stop_flag, !asked_to_stop stop_flag)

/-- Loop of subscribe(client, uuid, callback): while not asked_to_stop it
sleeps 0.1 s, so it polls the flag once per 0.1 s tick.  flagAt t is the
global flag at poll tick t; fuel bounds the recursion.  Returns the tick at
which the loop observed the flag and exited, or none when fuel ran out. -/
def subscribeExitTick (flagAt : ℕ → Bool) : ℕ → ℕ → Option ℕ
  | 0, _ => none
  | fuel + 1, t =>
    if asked_to_stop (flagAt t) then some t
    else subscribeExitTick flagAt fuel (t + 1)

/-- Events of one subscribe call. -/
inductive SubEvent
  | startNotify
  | poll
  | stopNotify
deriving DecidableEq, Repr

/-- Loop part of subscribe as an event trace: one poll event per 0.1 s sleep
while the flag is unset, then stop_notify. -/
def subscribeLoop (flagAt : ℕ → Bool) : ℕ → ℕ → Option (List SubEvent)
  | 0, _ => none
  | fuel + 1, t =>
    if asked_to_stop (flagAt t) then some [SubEvent.stopNotify]
    else (subscribeLoop flagAt fuel (t + 1)).map (fun es => SubEvent.poll :: es)

/-- Source subscribe: start_notify first, then the polled wait loop, then
stop_notify. -/
def subscribe (flagAt : ℕ → Bool) (fuel : ℕ) : Option (List SubEvent) :=
  (subscribeLoop flagAt fuel 0).map (fun es => SubEvent.startNotify :: es)

/-- The subscribe loop exits at a tick no later than any tick at which the
flag is set, given enough fuel. -/
theorem subscribeExitTick_le (flagAt : ℕ → Bool) :
    ∀ (fuel t0 n : ℕ), t0 ≤ n → n < t0 + fuel → flagAt n = true →
      ∃ t, t0 ≤ t ∧ t ≤ n ∧ subscribeExitTick flagAt fuel t0 = some t := by
  intro fuel
  induction fuel with
  | zero =>
    intro t0 n h1 h2 h3
    omega
  | succ fuel ih =>
    intro t0 n h1 h2 h3
    by_cases hf : flagAt t0 = true
    · exact ⟨t0, le_refl t0, h1, by simp [subscribeExitTick, asked_to_stop, hf]⟩
    · have hne : t0 ≠ n := fun he => hf (he ▸ h3)
      obtain ⟨t, ht0, htn, hts⟩ := ih (t0 + 1) n (by omega) (by omega) h3
      refine ⟨t, by omega, htn, ?_⟩
      simp [subscribeExitTick, asked_to_stop, hf, hts]

/-- Once the flag is set by some tick, the subscribe loop runs at most that
many poll iterations and then invokes stop_notify: its trace is a poll event
per iteration before the exit tick, closed by the stopNotify event. -/
theorem subscribeLoop_exits (flagAt : ℕ → Bool) :
    ∀ (fuel t0 n : ℕ), t0 ≤ n → n < t0 + fuel → flagAt n = true →
      ∃ t, t0 ≤ t ∧ t ≤ n ∧
        subscribeLoop flagAt fuel t0 =
          some (List.replicate (t - t0) SubEvent.poll ++ [SubEvent.stopNotify]) := by
  intro fuel
  induction fuel with
  | zero =>
    intro t0 n h1 h2 h3
    omega
  | succ fuel ih =>
    intro t0 n h1 h2 h3
    by_cases hf : flagAt t0 = true
    · refine ⟨t0, le_refl t0, h1, ?_⟩
      simp [subscribeLoop, asked_to_stop, hf]
    · have hne : t0 ≠ n := fun he => hf (he ▸ h3)
      obtain ⟨t, ht0, htn, hts⟩ := ih (t0 + 1) n (by omega) (by omega) h3
      refine ⟨t, by omega, htn, ?_⟩
      have hrep : t - t0 = (t - (t0 + 1)) + 1 := by omega
      simp [subscribeLoop, asked_to_stop, hf, hts, hrep, List.replicate_succ]

/-- Claim C8: the transport disconnect callback sets the global stop flag,
and the subscribe loop, which polls that flag once per 0.1 s interval, exits
no later than the poll tick at which the flag is set — within one poll
interval — and unsubscribes on the way out: its trace is start_notify, at
most n poll sleeps, then stop_notify, instead of blocking until the movement
timeout. -/
theorem disconnect_prompt_exit_spec (flagAt : ℕ → Bool) (n fuel : ℕ)
    (hset : flagAt n = true) (hfuel : n < fuel) :
    (∀ b, (disconnect_callback b).1 = true) ∧
    (∃ t ≤ n, subscribeExitTick flagAt fuel 0 = some t) ∧
    (∃ t ≤ n, subscribe flagAt fuel =
      some (SubEvent.startNotify ::
        (List.replicate t SubEvent.poll ++ [SubEvent.stopNotify]))) := by
  refine ⟨fun b => rfl, ?_, ?_⟩
  · obtain ⟨t, _, htn, hts⟩ :=
      subscribeExitTick_le flagAt fuel 0 n (Nat.zero_le n) (by omega) hset
    exact ⟨t, htn, hts⟩
  · obtain ⟨t, _, htn, hts⟩ :=
      subscribeLoop_exits flagAt fuel 0 n (Nat.zero_le n) (by omega) hset
    refine ⟨t, htn, ?_⟩
    simp [subscribe, hts]

/-- Witness for C8: a flag set from tick 0 makes the loop exit at tick 0 with
no poll sleep, start_notify followed immediately by stop_notify. -/
theorem disconnect_prompt_exit_spec_witness :
    (disconnect_callback false).1 = true ∧
    (∃ t ≤ 0, subscribeExitTick (fun _ => true) 1 0 = some t) ∧
    (∃ t ≤ 0, subscribe (fun _ => true) 1 =
      some (SubEvent.startNotify ::
        (List.replicate t SubEvent.poll ++ [SubEvent.stopNotify]))) := by
  have h := disconnect_prompt_exit_spec (fun _ => true) 0 1 rfl (by decide)
  exact ⟨h.1 false, h.2.1, h.2.2⟩

/-- The operations of the program that touch the global stop_flag:
ask_to_stop is installed as the SIGINT and SIGTERM handler in main, called by
disconnect_callback, called by the _move_to callback on convergence and by
main before disconnecting; asked_to_stop and the subscribe poll only read the
flag.  Nothing in the program assigns False to stop_flag after module
initialisation. -/
inductive FlagOp
  | signalHandler
  | disconnectCb
  | convergence
  | mainCleanup
  | readFlag
deriving DecidableEq, Repr

/-- Effect of each flag operation on the global stop_flag. -/
def applyFlagOp : FlagOp → Bool → Bool
  | .signalHandler, b => ask_to_stop b
  | .disconnectCb, b => (disconnect_callback b).1
  | .convergence, b => ask_to_stop b
  | .mainCleanup, b => ask_to_stop b
  | .readFlag, b => b

/-- Claim C10: the stop flag is monotone — every operation keeps a set flag
set, any sequence of operations after an ask_to_stop leaves asked_to_stop
true, and a subscribe started with the flag already set performs no poll
iteration: it starts and immediately stops the notification stream. -/
theorem stop_flag_monotone_spec (op : FlagOp) (ops : List FlagOp)
    (flagAt : ℕ → Bool) (fuel : ℕ)
    (hset : flagAt 0 = true) (hfuel : 0 < fuel) :
    (∀ b, b = true → applyFlagOp op b = true) ∧
    asked_to_stop (ops.foldl (fun b o => applyFlagOp o b) (ask_to_stop false)) = true ∧
    subscribe flagAt fuel = some [SubEvent.startNotify, SubEvent.stopNotify] := by
  have hmono : ∀ (l : List FlagOp) (b : Bool), b = true →
      l.foldl (fun b o => applyFlagOp o b) b = true := by
    intro l
    induction l with
    | nil =>
      intro b hb
      simpa using hb
    | cons o os ih =>
      intro b hb
      subst hb
      simp only [List.foldl_cons]
      exact ih _ (by cases o <;> rfl)
  refine ⟨fun b hb => ?_, ?_, ?_⟩
  · subst hb
    cases op <;> rfl
  · exact hmono ops (ask_to_stop false) rfl
  · cases fuel with
    | zero => omega
    | succ f => simp [subscribe, subscribeLoop, asked_to_stop, hset]

/-- Witness for C10: the disconnect callback preserves a set flag, a
signal-handler call followed by a convergence call leaves the flag set, and a
subscribe begun with the flag set starts and immediately stops notifying. -/
theorem stop_flag_monotone_spec_witness :
    applyFlagOp FlagOp.disconnectCb true = true ∧
    asked_to_stop ([FlagOp.signalHandler, FlagOp.convergence].foldl
      (fun b o => applyFlagOp o b) (ask_to_stop false)) = true ∧
    subscribe (fun _ => true) 1 = some [SubEvent.startNotify, SubEvent.stopNotify] := by
  have h := stop_flag_monotone_spec FlagOp.disconnectCb
    [FlagOp.signalHandler, FlagOp.convergence] (fun _ => true) 1 rfl (by decide)
  exact ⟨h.1 true rfl, h.2.1, h.2.2⟩

/-! Configuration validation and process exit codes. -/

/-- Python falsiness of the configured mac address: absent or empty. -/
def macMissing : Option String → Bool
  | none => true
  | some s => s.isEmpty

/-- Configuration fields read by the startup validation block. -/
structure Config where
  mac_address : Option String
  sit_height : ℤ
  stand_height : ℤ
deriving Repr

/-- parser.error prints a usage message and terminates the process with exit
status 2.  This is the documented behaviour of argparse, which is outside
this repository. -/
def PARSER_ERROR_EXIT_CODE : ℕ := 2

/-- The startup validation block of main.py: mac address required, sit height
below stand height, sit height at least BASE_HEIGHT, stand height at most
MAX_HEIGHT.  Each failed check calls parser.error, exiting with status 2;
when every check passes the program continues (none). -/
def configValidationExit (c : Config) : Option ℕ :=
  if macMissing c.mac_address then some PARSER_ERROR_EXIT_CODE
  else if c.sit_height ≥ c.stand_height then some PARSER_ERROR_EXIT_CODE
  else if (c.sit_height : ℚ) < BASE_HEIGHT then some PARSER_ERROR_EXIT_CODE
  else if (c.stand_height : ℚ) > MAX_HEIGHT then some PARSER_ERROR_EXIT_CODE
  else none

/-- Terminal events of run() and main() that decide the process exit code:
run calls os exit 0 after the adapter-scan dump, os exit 1 when the desk is
not found, connect calls os exit 1 on a connection failure, and a completed
main() ends the interpreter with status 0. -/
inductive RunOutcome
  | scanAdapterDump
  | deskNotFound
  | connectFailed
  | gracefulCompletion
deriving DecidableEq, Repr

/-- Exit code of each terminal run event. -/
def runExitCode : RunOutcome → ℕ
  | .scanAdapterDump => 0
  | .deskNotFound => 1
  | .connectFailed => 1
  | .gracefulCompletion => 0

/-- Counterexample to C9: a missing mac address makes the process exit
through parser.error with status 2, not 1. -/
theorem exit_code_config_cex :
    configValidationExit { mac_address := none, sit_height := 683, stand_height := 1040 }
      = some 2 ∧ (2 : ℕ) ≠ 1 :=
  ⟨rfl, by decide⟩

/-- Claim C9 (amended): the process exits 0 on graceful completion and on the
adapter-scan dump, 1 on connection failure and on desk-not-found, and 2 — via
argparse parser.error — on each configuration failure: missing mac address,
sit height at or above stand height, sit height below 620, stand height above
1270. -/
theorem exit_codes_spec (c : Config) :
    (macMissing c.mac_address = true → configValidationExit c = some 2) ∧
    (c.sit_height ≥ c.stand_height → configValidationExit c = some 2) ∧
    ((c.sit_height : ℚ) < BASE_HEIGHT → configValidationExit c = some 2) ∧
    ((c.stand_height : ℚ) > MAX_HEIGHT → configValidationExit c = some 2) ∧
    (runExitCode RunOutcome.gracefulCompletion = 0 ∧
     runExitCode RunOutcome.scanAdapterDump = 0 ∧
     runExitCode RunOutcome.connectFailed = 1 ∧
     runExitCode RunOutcome.deskNotFound = 1) := by
  refine ⟨fun h => ?_, fun h => ?_, fun h => ?_, fun h => ?_, rfl, rfl, rfl, rfl⟩ <;>
    (unfold configValidationExit PARSER_ERROR_EXIT_CODE
     split_ifs with h1 h2 h3 h4 <;> first | rfl | simp_all)

/-- Witness for C9 (amended): concrete configs exercising a missing mac
address, a sit height below 620 and a stand height above 1270 all exit with
status 2. -/
theorem exit_codes_spec_witness :
    configValidationExit
      { mac_address := none, sit_height := 683, stand_height := 1040 } = some 2 ∧
    configValidationExit
      { mac_address := some "F0", sit_height := 600, stand_height := 1040 } = some 2 ∧
    configValidationExit
      { mac_address := some "F0", sit_height := 700, stand_height := 2000 } = some 2 := by
  refine ⟨(exit_codes_spec _).1 rfl, (exit_codes_spec _).2.2.1 ?_,
    (exit_codes_spec _).2.2.2.1 ?_⟩
  · decide
  · decide

end Idasen
